import Mathlib

/-!
Verification of the C4 compiler (src/c4.rs): a shallow embedding of the
compiler state (`struct C4`), the lexer (`next`), the expression compiler
(`expr`), the statement compilers (`compile_if_statement`,
`compile_while_statement`, `compile_block`), the whole-program pipeline
(`compile`, `compile_function`) and the VM entry point (`run`),
together with theorems settling the specification claims.

Embedding conventions:
* Rust `i64` (`type Int = i64`) values are modelled as `Int`; the inputs
  considered never approach overflow.  Rust `i32` hash arithmetic uses
  `wrapping_mul`/`wrapping_add`/`<<`, modelled by `wrap32`.
* The source text is a `List Char` indexed by character position; all the
  programs considered are ASCII, where Rust's byte indexing/slicing and
  `chars().nth` indexing coincide.
* The code buffer `e : Vec<Int>` (256K zero-initialised words, written at
  `self.le` after pre-incrementing) is modelled as a total function
  `Nat → Int` that is zero where never written; likewise `data`.
* `Vec<Symbol>` is a `List CSymbol`; Rust's `class` field is spelled
  `class_` (a Lean keyword), and the Rust enum `Type` is the namespace
  `Ty` (a Lean keyword).
* The opcode enum of c4.rs line 52 is written
  `LEA, IMN, JMP, JSR, BZMBNZ, ENT, ...`; the rest of the program (and the
  repository's unit tests) refer to `OpCode::IMM` and `OpCode::BZ`, the
  constructors in positions 1 and 4, so those discriminants are named
  `IMM` and `BZ` here.
* Loops in the Rust code are modelled by fuel recursion; every loop
  advances the cursor, so fuel `source.length + 1` (resp. a generous
  bound for `expr`'s token-driven recursion) makes the fuelled function
  agree with the loop on every terminating run.
* `println!` diagnostics, the `-s`/`-d` flags and the `cycle` counter have
  no effect on compilation results and are omitted.
-/

/-- 32-bit two's-complement normalisation: the value of an `i32` whose
unbounded value is `n` (used for `wrapping_mul`, `wrapping_add`, `<<`). -/
def wrap32 (n : Int) : Int := (n + 2 ^ 31) % 2 ^ 32 - 2 ^ 31

/-- Token type codes, c4.rs lines 8-47 (`Num = 128`, then consecutive). -/
def TokenType.Num : ℤ := 128
def TokenType.Fun : ℤ := 129
def TokenType.Sys : ℤ := 130
def TokenType.Glo : ℤ := 131
def TokenType.Loc : ℤ := 132
def TokenType.Id : ℤ := 133
def TokenType.Char : ℤ := 134
def TokenType.Else : ℤ := 135
def TokenType.Enum : ℤ := 136
def TokenType.If : ℤ := 137
def TokenType.Int : ℤ := 138
def TokenType.Return : ℤ := 139
def TokenType.Sizeof : ℤ := 140
def TokenType.While : ℤ := 141
def TokenType.Assign : ℤ := 142
def TokenType.Cond : ℤ := 143
def TokenType.Lor : ℤ := 144
def TokenType.Lan : ℤ := 145
def TokenType.Or : ℤ := 146
def TokenType.Xor : ℤ := 147
def TokenType.And : ℤ := 148
def TokenType.Eq : ℤ := 149
def TokenType.Ne : ℤ := 150
def TokenType.Lt : ℤ := 151
def TokenType.Gt : ℤ := 152
def TokenType.Le : ℤ := 153
def TokenType.Ge : ℤ := 154
def TokenType.Shl : ℤ := 155
def TokenType.Shr : ℤ := 156
def TokenType.Add : ℤ := 157
def TokenType.Sub : ℤ := 158
def TokenType.Mul : ℤ := 159
def TokenType.Div : ℤ := 160
def TokenType.Mod : ℤ := 161
def TokenType.Inc : ℤ := 162
def TokenType.Dec : ℤ := 163
def TokenType.Brak : ℤ := 164

/-- VM opcode discriminants, c4.rs lines 52-55.  Positions 1 and 4 are the
codes the program stores and compares as `OpCode::IMM` and `OpCode::BZ`. -/
def OpCode.LEA : Int := 0
def OpCode.IMM : Int := 1
def OpCode.JMP : Int := 2
def OpCode.JSR : Int := 3
def OpCode.BZ : Int := 4
def OpCode.ENT : Int := 5
def OpCode.ADJ : Int := 6
def OpCode.LEV : Int := 7
def OpCode.LI : Int := 8
def OpCode.LC : Int := 9
def OpCode.SI : Int := 10
def OpCode.SC : Int := 11
def OpCode.PSH : Int := 12
def OpCode.OR : Int := 13
def OpCode.XOR : Int := 14
def OpCode.AND : Int := 15
def OpCode.EQ : Int := 16
def OpCode.NE : Int := 17
def OpCode.LT : Int := 18
def OpCode.GT : Int := 19
def OpCode.LE : Int := 20
def OpCode.GE : Int := 21
def OpCode.SHL : Int := 22
def OpCode.SHR : Int := 23
def OpCode.ADD : Int := 24
def OpCode.SUB : Int := 25
def OpCode.MUL : Int := 26
def OpCode.DIV : Int := 27
def OpCode.MOD : Int := 28
def OpCode.OPEN : Int := 29
def OpCode.READ : Int := 30
def OpCode.CLOS : Int := 31
def OpCode.PRTF : Int := 32
def OpCode.MALC : Int := 33
def OpCode.FREE : Int := 34
def OpCode.MSET : Int := 35
def OpCode.MCMP : Int := 36
def OpCode.EXIT : Int := 37
def OpCode.FUN : Int := 38

/-- The type lattice, c4.rs lines 60-64 (`enum Type`; `Type` is reserved
in Lean, hence `Ty`). -/
def Ty.CHAR : Int := 0
def Ty.INT : Int := 1
def Ty.PTR : Int := 2

/-- `std::mem::size_of::<Int>()` for `Int = i64`. -/
def word_size : Int := 8

/-- Symbol-table entry, c4.rs lines 67-81 (`class` is reserved in Lean,
hence `class_`; names are character lists of the ASCII lexeme). -/
structure CSymbol where
  token : Int
  hash : Int
  name : List Char
  class_ : Int
  type_ : Int
  value : Int
  h_class : Int
  h_type : Int
  h_val : Int
deriving DecidableEq

def default_symbol : CSymbol :=
  { token := 0, hash := 0, name := [], class_ := 0, type_ := 0, value := 0,
    h_class := 0, h_type := 0, h_val := 0 }

/-- Compiler state, c4.rs lines 84-103 (diagnostic-only fields `src`,
`debug`, `cycle` omitted; they never influence a result). -/
structure C4 where
  p : Nat
  lp : Nat
  source : List Char
  e : Nat → Int
  le : Nat
  symbols : List CSymbol
  token : Int
  token_val : Int
  type_ : Int
  loc : Int
  line : Int
  data : Nat → Int
  data_index : Nat
  id : Nat

/-- `C4::new`, c4.rs lines 108-128 (the 256K zero vectors are the
all-zero functions). -/
def C4.new : C4 :=
  { p := 0, lp := 0, source := [], e := fun _ => 0, le := 0, symbols := [],
    token := 0, token_val := 0, type_ := 0, loc := 0, line := 1,
    data := fun _ => 0, data_index := 0, id := 0 }

/-- Pointwise update of a word buffer (`self.e[i] = v`). -/
def updE (f : Nat → Int) (i : Nat) (v : Int) : Nat → Int :=
  fun j => if j = i then v else f j

/-- `current_char`, c4.rs lines 131-137. -/
def C4.current_char (s : C4) : Char :=
  if s.p < s.source.length then s.source.getD s.p (Char.ofNat 0) else Char.ofNat 0

/-- Rust `&source[a..b]` on an ASCII source. -/
def sliceChars (l : List Char) (a b : Nat) : List Char := (l.drop a).take (b - a)

/-- Rust `char::is_whitespace`, restricted to the ASCII range of the
sources considered (space and the control characters 9-13). -/
def isWsRust (c : Char) : Bool := c.toNat = 32 || (9 ≤ c.toNat && c.toNat ≤ 13)

/-- Rust `char::is_alphabetic`, restricted to ASCII (`A`-`Z`, `a`-`z`). -/
def isAlphaRust (c : Char) : Bool :=
  (65 ≤ c.toNat && c.toNat ≤ 90) || (97 ≤ c.toNat && c.toNat ≤ 122)

/-- The identifier-character test `ch.is_alphabetic() || ch == '_'` used at
c4.rs lines 270 and 278. -/
def identRust (c : Char) : Bool := isAlphaRust c || c.toNat = 95

/-- Rust `ch.is_digit(10)`. -/
def isDigitRust (c : Char) : Bool := 48 ≤ c.toNat && c.toNat ≤ 57

/-- Rust `ch.is_digit(16)`. -/
def isHexRust (c : Char) : Bool :=
  isDigitRust c || (97 ≤ c.toNat && c.toNat ≤ 102) || (65 ≤ c.toNat && c.toNat ≤ 70)

/-- Rust `ch.is_digit(8)`. -/
def isOctRust (c : Char) : Bool := 48 ≤ c.toNat && c.toNat ≤ 55

/-- Hex digit value, c4.rs lines 327-333. -/
def hexDigitVal (c : Char) : Int :=
  if isDigitRust c then (c.toNat : Int) - 48
  else if 97 ≤ c.toNat && c.toNat ≤ 102 then (c.toNat : Int) - 97 + 10
  else (c.toNat : Int) - 65 + 10

/-- The identifier hash of `add_keyword`/`add_syscall`/`next`:
`hash = hash*147 + char` over all characters (wrapping `i32`), then
`(hash << 6) + length`, c4.rs lines 185-190. -/
def hashOf (name : List Char) : Int :=
  let h := name.foldl (fun h c => wrap32 (wrap32 (h * 147) + (c.toNat : Int))) 0
  wrap32 (wrap32 (h * 64) + (name.length : Int))

/-- `add_keyword`, c4.rs lines 184-203. -/
def C4.add_keyword (s : C4) (name : List Char) (token : Int) : C4 :=
  { s with symbols := s.symbols ++
      [{ token := token, hash := hashOf name, name := name, class_ := 0,
         type_ := 0, value := 0, h_class := 0, h_type := 0, h_val := 0 }] }

/-- `add_syscall`, c4.rs lines 205-224. -/
def C4.add_syscall (s : C4) (name : List Char) (code : Int) : C4 :=
  { s with symbols := s.symbols ++
      [{ token := TokenType.Id, hash := hashOf name, name := name,
         class_ := TokenType.Sys, type_ := Ty.INT, value := code,
         h_class := 0, h_type := 0, h_val := 0 }] }

/-- `init_symbol_table`, c4.rs lines 147-182: the eight keywords, the nine
syscalls, then `void` as a `Char` keyword. -/
def C4.init_symbol_table (s : C4) : C4 :=
  let s := C4.add_keyword s "char".data TokenType.Char
  let s := C4.add_keyword s "else".data TokenType.Else
  let s := C4.add_keyword s "enum".data TokenType.Enum
  let s := C4.add_keyword s "if".data TokenType.If
  let s := C4.add_keyword s "int".data TokenType.Int
  let s := C4.add_keyword s "return".data TokenType.Return
  let s := C4.add_keyword s "sizeof".data TokenType.Sizeof
  let s := C4.add_keyword s "while".data TokenType.While
  let s := C4.add_syscall s "open".data OpCode.OPEN
  let s := C4.add_syscall s "read".data OpCode.READ
  let s := C4.add_syscall s "close".data OpCode.CLOS
  let s := C4.add_syscall s "printf".data OpCode.PRTF
  let s := C4.add_syscall s "malloc".data OpCode.MALC
  let s := C4.add_syscall s "free".data OpCode.FREE
  let s := C4.add_syscall s "memset".data OpCode.MSET
  let s := C4.add_syscall s "memcmp".data OpCode.MCMP
  let s := C4.add_syscall s "exit".data OpCode.EXIT
  C4.add_keyword s "void".data TokenType.Char

/-- The scan of `find_symbol` from index `i`: first entry whose hash and
name both match, c4.rs lines 226-233. -/
def find_symbol_from (syms : List CSymbol) (i : Nat) (hash : Int) (name : List Char) :
    Option Nat :=
  match syms with
  | [] => none
  | sym :: rest =>
      if sym.hash = hash ∧ sym.name = name then some i
      else find_symbol_from rest (i + 1) hash name

/-- `find_symbol`, c4.rs lines 226-233. -/
def C4.find_symbol (s : C4) (hash : Int) (name : List Char) : Option Nat :=
  find_symbol_from s.symbols 0 hash name

/-- The whitespace loop at the head of `next`, c4.rs lines 239-258
(newline updates `line` and `lp`; breaks at the first non-whitespace). -/
def C4.skip_ws : Nat → C4 → C4
  | 0, s => s
  | fuel + 1, s =>
      if s.p < s.source.length then
        let ch := C4.current_char s
        if ch.toNat = 10 then
          C4.skip_ws fuel { s with line := s.line + 1, lp := s.p + 1, p := s.p + 1 }
        else if isWsRust ch then C4.skip_ws fuel { s with p := s.p + 1 }
        else s
      else s

/-- The identifier-collection loop of `next`, c4.rs lines 276-284:
consumes identifier characters, accumulating the wrapping hash. -/
def C4.id_loop : Nat → C4 → Int → C4 × Int
  | 0, s, h => (s, h)
  | fuel + 1, s, h =>
      if s.p < s.source.length then
        let ch := C4.current_char s
        if isAlphaRust ch || ch.toNat = 95 then
          C4.id_loop fuel { s with p := s.p + 1 }
            (wrap32 (wrap32 (h * 147) + (ch.toNat : Int)))
        else (s, h)
      else (s, h)

/-- Hex-digit loop of `next`, c4.rs lines 324-339. -/
def C4.hex_loop : Nat → C4 → C4
  | 0, s => s
  | fuel + 1, s =>
      if s.p < s.source.length then
        let ch := C4.current_char s
        if isHexRust ch then
          C4.hex_loop fuel
            { s with token_val := s.token_val * 16 + hexDigitVal ch, p := s.p + 1 }
        else s
      else s

/-- Octal-digit loop of `next`, c4.rs lines 342-350. -/
def C4.oct_loop : Nat → C4 → C4
  | 0, s => s
  | fuel + 1, s =>
      if s.p < s.source.length then
        let ch := C4.current_char s
        if isOctRust ch then
          C4.oct_loop fuel
            { s with token_val := s.token_val * 8 + ((ch.toNat : Int) - 48), p := s.p + 1 }
        else s
      else s

/-- Decimal-digit loop of `next`, c4.rs lines 355-363. -/
def C4.dec_loop : Nat → C4 → C4
  | 0, s => s
  | fuel + 1, s =>
      if s.p < s.source.length then
        let ch := C4.current_char s
        if isDigitRust ch then
          C4.dec_loop fuel
            { s with token_val := s.token_val * 10 + ((ch.toNat : Int) - 48), p := s.p + 1 }
        else s
      else s

/-- The string/char-literal loop of `next`, c4.rs lines 375-390: decodes
`\n`, stores bytes into `data` only for double-quoted literals, and for
single quotes discards the decoded value. -/
def C4.str_loop : Nat → Char → C4 → C4
  | 0, _, s => s
  | fuel + 1, stype, s =>
      if s.p < s.source.length ∧ C4.current_char s ≠ stype then
        let val : Int := ((C4.current_char s).toNat : Int)
        let s1 := { s with p := s.p + 1 }
        let (val, s2) :=
          if val = 92 ∧ s1.p < s1.source.length then
            let v2 : Int := ((C4.current_char s1).toNat : Int)
            (if v2 = 110 then (10 : Int) else v2, { s1 with p := s1.p + 1 })
          else (val, s1)
        if stype.toNat = 34 then
          C4.str_loop fuel stype
            { s2 with data := updE s2.data s2.data_index val,
                      data_index := s2.data_index + 1 }
        else C4.str_loop fuel stype s2
      else s

/-- `while p < len && current != c { p += 1 }` (comment skipping, brace and
semicolon searches in `next` and `compile_function`). -/
def C4.skip_until : Nat → Char → C4 → C4
  | 0, _, s => s
  | fuel + 1, c, s =>
      if s.p < s.source.length ∧ C4.current_char s ≠ c then
        C4.skip_until fuel c { s with p := s.p + 1 }
      else s

/-- Word-alignment of the data cursor,
`(i + size_of::<Int>() - 1) & !(size_of::<Int>() - 1)`, c4.rs line 399. -/
def alignWord (n : Nat) : Nat := (n + 8 - 1) / 8 * 8

/-- `next` (fuelled), c4.rs lines 236-536: resets `token`, skips
whitespace, then lexes an identifier, number, string/char literal or
operator.  The `//` and `#` branches recurse after skipping the line. -/
def C4.nextF : Nat → C4 → C4
  | 0, s => s
  | fuel + 1, s =>
      let s := { s with token := 0 }
      let s := C4.skip_ws (s.source.length + 1) s
      if s.p < s.source.length then
        let ch := C4.current_char s
        if isAlphaRust ch || ch.toNat = 95 then
          -- identifier, c4.rs lines 270-310
          let start := s.p
          let (s1, hash) := C4.id_loop (s.source.length + 1) { s with p := s.p + 1 }
            ((ch.toNat : Int))
          let hash := wrap32 (wrap32 (hash * 64) + ((s1.p - start : Nat) : Int))
          let name := sliceChars s1.source start s1.p
          match C4.find_symbol s1 hash name with
          | some idx =>
              { s1 with token := (s1.symbols.getD idx default_symbol).token, id := idx }
          | none =>
              { s1 with id := s1.symbols.length,
                        symbols := s1.symbols ++
                          [{ token := TokenType.Id, hash := hash, name := name,
                             class_ := 0, type_ := 0, value := 0, h_class := 0,
                             h_type := 0, h_val := 0 }],
                        token := TokenType.Id }
        else if isDigitRust ch then
          -- number, c4.rs lines 313-367
          let is_zero := ch.toNat = 48
          let s1 := { s with token_val := (ch.toNat : Int) - 48, p := s.p + 1 }
          let s2 :=
            if is_zero ∧ s1.p < s1.source.length then
              let nc := C4.current_char s1
              if nc.toNat = 120 ∨ nc.toNat = 88 then
                C4.hex_loop (s1.source.length + 1) { s1 with p := s1.p + 1, token_val := 0 }
              else if isOctRust nc then C4.oct_loop (s1.source.length + 1) s1
              else s1
            else if ¬ is_zero then C4.dec_loop (s1.source.length + 1) s1
            else s1
          { s2 with token := TokenType.Num }
        else if ch.toNat = 34 ∨ ch.toNat = 39 then
          -- string or char literal, c4.rs lines 370-404; note that for a
          -- single-quoted literal neither token_val nor data is written
          let string_type := ch
          let data_start := s.data_index
          let s1 := C4.str_loop (s.source.length + 1) string_type { s with p := s.p + 1 }
          let s2 := if s1.p < s1.source.length then { s1 with p := s1.p + 1 } else s1
          if string_type.toNat = 34 then
            { s2 with token_val := (data_start : Int), data_index := alignWord s2.data_index }
          else { s2 with token := TokenType.Num }
        else if ch.toNat = 47 then
          -- '/' : comment or division, c4.rs lines 408-420
          let s1 := { s with p := s.p + 1 }
          if (C4.current_char s1).toNat = 47 then
            let s2 := C4.skip_until (s1.source.length + 1) (Char.ofNat 10) { s1 with p := s1.p + 1 }
            C4.nextF fuel s2
          else { s1 with token := TokenType.Div }
        else if ch.toNat = 61 then
          -- '='
          let s1 := { s with p := s.p + 1 }
          if (C4.current_char s1).toNat = 61 then
            { s1 with p := s1.p + 1, token := TokenType.Eq }
          else { s1 with token := TokenType.Assign }
        else if ch.toNat = 43 then
          -- '+'
          let s1 := { s with p := s.p + 1 }
          if (C4.current_char s1).toNat = 43 then
            { s1 with p := s1.p + 1, token := TokenType.Inc }
          else { s1 with token := TokenType.Add }
        else if ch.toNat = 45 then
          -- '-'
          let s1 := { s with p := s.p + 1 }
          if (C4.current_char s1).toNat = 45 then
            { s1 with p := s1.p + 1, token := TokenType.Dec }
          else { s1 with token := TokenType.Sub }
        else if ch.toNat = 33 then
          -- '!'
          let s1 := { s with p := s.p + 1 }
          if (C4.current_char s1).toNat = 61 then
            { s1 with p := s1.p + 1, token := TokenType.Ne }
          else { s1 with token := 33 }
        else if ch.toNat = 60 then
          -- '<'
          let s1 := { s with p := s.p + 1 }
          if (C4.current_char s1).toNat = 61 then
            { s1 with p := s1.p + 1, token := TokenType.Le }
          else if (C4.current_char s1).toNat = 60 then
            { s1 with p := s1.p + 1, token := TokenType.Shl }
          else { s1 with token := TokenType.Lt }
        else if ch.toNat = 62 then
          -- '>'
          let s1 := { s with p := s.p + 1 }
          if (C4.current_char s1).toNat = 61 then
            { s1 with p := s1.p + 1, token := TokenType.Ge }
          else if (C4.current_char s1).toNat = 62 then
            { s1 with p := s1.p + 1, token := TokenType.Shr }
          else { s1 with token := TokenType.Gt }
        else if ch.toNat = 124 then
          -- '|'
          let s1 := { s with p := s.p + 1 }
          if (C4.current_char s1).toNat = 124 then
            { s1 with p := s1.p + 1, token := TokenType.Lor }
          else { s1 with token := TokenType.Or }
        else if ch.toNat = 38 then
          -- '&'
          let s1 := { s with p := s.p + 1 }
          if (C4.current_char s1).toNat = 38 then
            { s1 with p := s1.p + 1, token := TokenType.Lan }
          else { s1 with token := TokenType.And }
        else if ch.toNat = 94 then { s with p := s.p + 1, token := TokenType.Xor }
        else if ch.toNat = 37 then { s with p := s.p + 1, token := TokenType.Mod }
        else if ch.toNat = 42 then { s with p := s.p + 1, token := TokenType.Mul }
        else if ch.toNat = 91 then { s with p := s.p + 1, token := TokenType.Brak }
        else if ch.toNat = 63 then { s with p := s.p + 1, token := TokenType.Cond }
        else if ch.toNat = 35 then
          -- '#' : preprocessor line skipped, then recurse, c4.rs lines 519-526
          let s1 := C4.skip_until (s.source.length + 1) (Char.ofNat 10) { s with p := s.p + 1 }
          C4.nextF fuel s1
        else
          -- remaining single characters become their own token code
          -- (the '~;{}()],:' arm and the catch-all arm are identical)
          { s with token := (ch.toNat : Int), p := s.p + 1 }
      else s

/-- `next`, c4.rs lines 236-536: the fuelled lexer with enough fuel for
any chain of skipped comment/preprocessor lines. -/
def C4.next (s : C4) : C4 := C4.nextF (s.source.length + 1) s

/-- `emit`, c4.rs lines 539-542: pre-increments `le`, then stores the
opcode (as an integer) at the new `le`. -/
def C4.emit (s : C4) (op : Int) : C4 :=
  { s with le := s.le + 1, e := updE s.e (s.le + 1) op }

/-- `emit_with_operand`, c4.rs lines 545-549. -/
def C4.emit_with_operand (s : C4) (op operand : Int) : C4 :=
  let s1 := C4.emit s op
  { s1 with le := s1.le + 1, e := updE s1.e (s1.le + 1) operand }

/-- The mapping from binary-operator token to opcode realised twice inside
`expr`'s binary loop as identical 16-way `if` chains, c4.rs lines 797-831
and 837-871 (`none` is the "bad operator" fall-through). -/
def bin_op_code (tok : Int) : Option Int :=
  if tok = TokenType.Add then some OpCode.ADD
  else if tok = TokenType.Sub then some OpCode.SUB
  else if tok = TokenType.Mul then some OpCode.MUL
  else if tok = TokenType.Div then some OpCode.DIV
  else if tok = TokenType.Mod then some OpCode.MOD
  else if tok = TokenType.And then some OpCode.AND
  else if tok = TokenType.Or then some OpCode.OR
  else if tok = TokenType.Xor then some OpCode.XOR
  else if tok = TokenType.Eq then some OpCode.EQ
  else if tok = TokenType.Ne then some OpCode.NE
  else if tok = TokenType.Lt then some OpCode.LT
  else if tok = TokenType.Gt then some OpCode.GT
  else if tok = TokenType.Le then some OpCode.LE
  else if tok = TokenType.Ge then some OpCode.GE
  else if tok = TokenType.Shl then some OpCode.SHL
  else if tok = TokenType.Shr then some OpCode.SHR
  else none

/-- The string-literal token skip `while self.token == '"' { self.next(); }`
inside `expr`, c4.rs lines 570-572. -/
def C4.str_tok_skip : Nat → C4 → C4
  | 0, s => s
  | fuel + 1, s =>
      if s.token = 34 then C4.str_tok_skip fuel (C4.next s) else s

/-- The `sizeof` star loop `while token == Mul { next; type_ += PTR }`,
c4.rs lines 590-593. -/
def C4.sizeof_stars : Nat → C4 → C4
  | 0, s => s
  | fuel + 1, s =>
      if s.token = TokenType.Mul then
        C4.sizeof_stars fuel { (C4.next s) with type_ := s.type_ + Ty.PTR }
      else s

/-- The cast star loop `while token == Mul { next; t += PTR }`,
c4.rs lines 668-671 (accumulates into the local `t`). -/
def C4.cast_stars : Nat → C4 → Int → C4 × Int
  | 0, s, t => (s, t)
  | fuel + 1, s, t =>
      if s.token = TokenType.Mul then C4.cast_stars fuel (C4.next s) (t + Ty.PTR)
      else (s, t)

mutual

/-- `expr` (fuelled), c4.rs lines 552-877: saves `type_`, parses one
primary expression, runs the binary-operator loop, and finally restores
the saved `type_` (line 875) before returning `Ok`. -/
def C4.exprF : Nat → Int → C4 → Except String C4
  | 0, _, _ => Except.error "out of fuel"
  | fuel + 1, level, s =>
      let save_type := s.type_
      if s.token = 0 then
        Except.error (toString s.line ++ ": unexpected end of file in expression")
      else
        let primary : Except String C4 :=
          if s.token = TokenType.Num then
            -- numeric literal, c4.rs lines 562-566
            let s1 := C4.emit_with_operand s OpCode.IMM s.token_val
            Except.ok { (C4.next s1) with type_ := Ty.INT }
          else if s.token = 34 then
            -- string literal token, c4.rs lines 567-575
            let s1 := C4.emit_with_operand s OpCode.IMM s.token_val
            let s2 := C4.str_tok_skip (s.source.length + 1) (C4.next s1)
            Except.ok { s2 with data_index := alignWord s2.data_index, type_ := Ty.PTR }
          else if s.token = TokenType.Sizeof then
            -- sizeof, c4.rs lines 576-601
            let s1 := C4.next s
            if s1.token = 40 then
              let s2 := { (C4.next s1) with type_ := Ty.INT }
              let s3 :=
                if s2.token = TokenType.Int then C4.next s2
                else if s2.token = TokenType.Char then
                  { (C4.next s2) with type_ := Ty.CHAR }
                else s2
              let s4 := C4.sizeof_stars (s3.source.length + 1) s3
              if s4.token = 41 then
                let s5 := C4.next s4
                let size_val : Int := if s5.type_ = Ty.CHAR then 1 else word_size
                Except.ok { (C4.emit_with_operand s5 OpCode.IMM size_val) with type_ := Ty.INT }
              else Except.error (toString s4.line ++ ": close paren expected in sizeof")
            else Except.error (toString s1.line ++ ": open paren expected in sizeof")
          else if s.token = TokenType.Id then
            -- identifier, c4.rs lines 603-656
            let id_idx := s.id
            let s1 := C4.next s
            if s1.token = 40 then
              -- call, c4.rs lines 606-633
              match C4.arg_loopF fuel (C4.next s1) 0 with
              | Except.error e => Except.error e
              | Except.ok (s2, arg_count) =>
                  let s3 := C4.next s2
                  let sym := s3.symbols.getD id_idx default_symbol
                  let emitted : Except String C4 :=
                    if sym.class_ = TokenType.Sys then
                      Except.ok (C4.emit_with_operand s3 OpCode.IMM sym.value)
                    else if sym.class_ = TokenType.Fun then
                      Except.ok (C4.emit_with_operand s3 OpCode.JSR sym.value)
                    else Except.error (toString s3.line ++ ": bad function call")
                  match emitted with
                  | Except.error e => Except.error e
                  | Except.ok s4 =>
                      let s5 :=
                        if arg_count > 0 then C4.emit_with_operand s4 OpCode.ADJ arg_count
                        else s4
                      Except.ok { s5 with type_ := sym.type_ }
            else if (s1.symbols.getD id_idx default_symbol).class_ = TokenType.Num then
              -- enum constant, c4.rs lines 634-637
              let sym := s1.symbols.getD id_idx default_symbol
              Except.ok { (C4.emit_with_operand s1 OpCode.IMM sym.value) with type_ := Ty.INT }
            else
              -- variable load, c4.rs lines 638-656
              let sym := s1.symbols.getD id_idx default_symbol
              let addr : Except String C4 :=
                if sym.class_ = TokenType.Loc then
                  Except.ok (C4.emit_with_operand s1 OpCode.LEA (s1.loc - sym.value))
                else if sym.class_ = TokenType.Glo then
                  Except.ok (C4.emit_with_operand s1 OpCode.IMM sym.value)
                else Except.error (toString s1.line ++ ": undefined variable")
              match addr with
              | Except.error e => Except.error e
              | Except.ok s2 =>
                  let s3 := { s2 with type_ := sym.type_ }
                  Except.ok (C4.emit s3 (if s3.type_ = Ty.CHAR then OpCode.LC else OpCode.LI))
          else if s.token = 40 then
            -- parenthesis: cast or grouping, c4.rs lines 658-687
            let s1 := C4.next s
            if s1.token = TokenType.Int ∨ s1.token = TokenType.Char then
              let t0 : Int := if s1.token = TokenType.Int then Ty.INT else Ty.CHAR
              let (s2, t) := C4.cast_stars (s1.source.length + 1) (C4.next s1) t0
              if s2.token = 41 then
                match C4.exprF fuel TokenType.Inc (C4.next s2) with
                | Except.error e => Except.error e
                | Except.ok s3 => Except.ok { s3 with type_ := t }
              else Except.error (toString s2.line ++ ": bad cast")
            else
              match C4.exprF fuel TokenType.Assign s1 with
              | Except.error e => Except.error e
              | Except.ok s2 =>
                  if s2.token = 41 then Except.ok (C4.next s2)
                  else Except.error (toString s2.line ++ ": close paren expected")
          else if s.token = TokenType.Mul then
            -- unary dereference, c4.rs lines 689-701
            match C4.exprF fuel TokenType.Inc (C4.next s) with
            | Except.error e => Except.error e
            | Except.ok s1 =>
                if s1.type_ ≥ Ty.PTR then
                  let s2 := { s1 with type_ := s1.type_ - Ty.PTR }
                  Except.ok (C4.emit s2 (if s2.type_ = Ty.CHAR then OpCode.LC else OpCode.LI))
                else Except.error (toString s1.line ++ ": bad dereference")
          else if s.token = TokenType.And then
            -- unary address-of, c4.rs lines 703-713
            match C4.exprF fuel TokenType.Inc (C4.next s) with
            | Except.error e => Except.error e
            | Except.ok s1 =>
                if s1.e s1.le = OpCode.LC ∨ s1.e s1.le = OpCode.LI then
                  Except.ok { s1 with le := s1.le - 1, type_ := s1.type_ + Ty.PTR }
                else Except.error (toString s1.line ++ ": bad address-of")
          else if s.token = 33 then
            -- logical not, c4.rs lines 714-721
            match C4.exprF fuel TokenType.Inc (C4.next s) with
            | Except.error e => Except.error e
            | Except.ok s1 =>
                let s2 := C4.emit_with_operand (C4.emit s1 OpCode.PSH) OpCode.IMM 0
                Except.ok { (C4.emit s2 OpCode.EQ) with type_ := Ty.INT }
          else if s.token = 126 then
            -- bitwise not, c4.rs lines 722-729
            match C4.exprF fuel TokenType.Inc (C4.next s) with
            | Except.error e => Except.error e
            | Except.ok s1 =>
                let s2 := C4.emit_with_operand (C4.emit s1 OpCode.PSH) OpCode.IMM (-1)
                Except.ok { (C4.emit s2 OpCode.XOR) with type_ := Ty.INT }
          else if s.token = TokenType.Add then
            -- unary plus, c4.rs lines 730-735
            match C4.exprF fuel TokenType.Inc (C4.next s) with
            | Except.error e => Except.error e
            | Except.ok s1 => Except.ok { s1 with type_ := Ty.INT }
          else if s.token = TokenType.Sub then
            -- unary minus, c4.rs lines 736-750
            let s1 := C4.emit_with_operand (C4.next s) OpCode.IMM 0
            if s1.token = TokenType.Num then
              let s2 := C4.emit_with_operand s1 OpCode.IMM (- s1.token_val)
              Except.ok { (C4.next s2) with type_ := Ty.INT }
            else
              let s2 := C4.emit (C4.emit_with_operand s1 OpCode.IMM (-1)) OpCode.PSH
              match C4.exprF fuel TokenType.Inc s2 with
              | Except.error e => Except.error e
              | Except.ok s3 => Except.ok { (C4.emit s3 OpCode.MUL) with type_ := Ty.INT }
          else if s.token = TokenType.Inc ∨ s.token = TokenType.Dec then
            -- prefix increment/decrement, c4.rs lines 751-778
            let op := s.token
            match C4.exprF fuel TokenType.Inc (C4.next s) with
            | Except.error e => Except.error e
            | Except.ok s1 =>
                let rewritten : Except String C4 :=
                  if s1.e s1.le = OpCode.LC then
                    Except.ok (C4.emit { s1 with e := updE s1.e s1.le OpCode.PSH } OpCode.LC)
                  else if s1.e s1.le = OpCode.LI then
                    Except.ok (C4.emit { s1 with e := updE s1.e s1.le OpCode.PSH } OpCode.LI)
                  else Except.error (toString s1.line ++ ": bad lvalue in pre-increment")
                match rewritten with
                | Except.error e => Except.error e
                | Except.ok s2 =>
                    let s3 := C4.emit_with_operand (C4.emit s2 OpCode.PSH) OpCode.IMM
                      (if s2.type_ > Ty.PTR then word_size else 1)
                    let s4 := C4.emit s3 (if op = TokenType.Inc then OpCode.ADD else OpCode.SUB)
                    Except.ok (C4.emit s4 (if s4.type_ = Ty.CHAR then OpCode.SC else OpCode.SI))
          else Except.error (toString s.line ++ ": bad expression")
        match primary with
        | Except.error e => Except.error e
        | Except.ok s1 =>
            match C4.bin_loopF fuel level s1 with
            | Except.error e => Except.error e
            | Except.ok s2 => Except.ok { s2 with type_ := save_type }

/-- The call-argument loop of `expr`, c4.rs lines 608-616:
`while token != ')' { expr(Assign); emit(PSH); arg_count += 1; if token == ',' next; }`. -/
def C4.arg_loopF : Nat → C4 → Int → Except String (C4 × Int)
  | 0, _, _ => Except.error "out of fuel"
  | fuel + 1, s, arg_count =>
      if s.token ≠ 41 then
        match C4.exprF fuel TokenType.Assign s with
        | Except.error e => Except.error e
        | Except.ok s1 =>
            let s2 := C4.emit s1 OpCode.PSH
            let s3 := if s2.token = 44 then C4.next s2 else s2
            C4.arg_loopF fuel s3 (arg_count + 1)
      else Except.ok (s, arg_count)

/-- The binary-operator loop of `expr`, c4.rs lines 784-874:
for `=`, rewrite a trailing `LC`/`LI` to `PSH` and iterate (no right-hand
side is compiled and no store is emitted); for any other token it emits
the matching opcode, advances, recurses at `level - 1`, then dispatches a
second emission on the token now current (erring with "bad operator" when
that token is not among the sixteen operators), restores `type_` to the
iteration-entry value and iterates. -/
def C4.bin_loopF : Nat → Int → C4 → Except String C4
  | 0, _, _ => Except.error "out of fuel"
  | fuel + 1, level, s =>
      if s.token ≥ level then
        if s.token = TokenType.Assign then
          let s1 := C4.next s
          if s1.e s1.le = OpCode.LC ∨ s1.e s1.le = OpCode.LI then
            C4.bin_loopF fuel level { s1 with e := updE s1.e s1.le OpCode.PSH }
          else Except.error (toString s1.line ++ ": bad lvalue in assignment")
        else
          let t := s.type_
          match bin_op_code s.token with
          | none => Except.error (toString s.line ++ ": bad operator")
          | some op =>
              let s1 := C4.next (C4.emit s op)
              match C4.exprF fuel (level - 1) s1 with
              | Except.error e => Except.error e
              | Except.ok s2 =>
                  match bin_op_code s2.token with
                  | none => Except.error (toString s2.line ++ ": bad operator")
                  | some op2 => C4.bin_loopF fuel level { (C4.emit s2 op2) with type_ := t }
      else Except.ok s

end

/-- `expr`, c4.rs lines 552-877, with fuel generous enough for every
terminating token stream of the source at hand. -/
def C4.expr (level : Int) (s : C4) : Except String C4 :=
  C4.exprF (2 * s.source.length + 64) level s

/-- The statement loop of `compile_block`, c4.rs lines 1093-1119: until
`}` or end-of-input, a `return` statement compiles its expression (unless
`;` follows at once), skips a `;`, and emits `LEV`; any other token is
skipped. -/
def C4.block_loop : Nat → C4 → Except String C4
  | 0, _ => Except.error "out of fuel"
  | fuel + 1, s =>
      if s.token ≠ 125 ∧ s.token ≠ 0 then
        if s.token = TokenType.Return then
          let s1 := C4.next s
          let compiled : Except String C4 :=
            if s1.token ≠ 59 then
              match C4.expr TokenType.Assign s1 with
              | Except.error e => Except.error ("Error in return expression: " ++ e)
              | Except.ok s2 => Except.ok s2
            else Except.ok s1
          match compiled with
          | Except.error e => Except.error e
          | Except.ok s2 =>
              let s3 := if s2.token = 59 then C4.next s2 else s2
              C4.block_loop fuel (C4.emit s3 OpCode.LEV)
        else C4.block_loop fuel (C4.next s)
      else Except.ok s

/-- `compile_block`, c4.rs lines 1085-1127: skips an opening `{`, runs the
statement loop, then skips a closing `}`. -/
def C4.compile_block (s : C4) : Except String C4 :=
  let s1 := if s.token = 123 then C4.next s else s
  match C4.block_loop (s1.source.length + 64) s1 with
  | Except.error e => Except.error e
  | Except.ok s2 => Except.ok (if s2.token = 125 then C4.next s2 else s2)

/-- `compile_if_statement`, c4.rs lines 1153-1197: compiles the condition,
requires `type_ = INT` after it, records `jump_address = le + 1` (the slot
the `BZ` opcode itself is then written into), emits `BZ` and `IMM 0`,
compiles the then-block, optionally emits `JMP`/`IMM 0` (whose address
`_else_address` is computed but never used) and the else-block, and
finally stores the current code length into `e[jump_address]`.
(On the error paths the Rust wraps the message with the mutated
`self.line`; since no construct here advances `line`, the entry state's
`line` is used.) -/
def C4.compile_if_statement (s : C4) : Except String C4 :=
  let s1 := C4.next s
  if s1.token ≠ 40 then
    Except.error (toString s1.line ++ ": open paren expected in if statement")
  else
    match C4.expr TokenType.Assign (C4.next s1) with
    | Except.error e =>
        Except.error (toString s1.line ++ ": error in if condition: " ++ e)
    | Except.ok s2 =>
        let condition_type := s2.type_
        if condition_type ≠ Ty.INT then
          Except.error (toString s2.line ++ ": if condition must be of type int")
        else
          let jump_address := s2.le + 1
          let s3 := C4.emit_with_operand (C4.emit s2 OpCode.BZ) OpCode.IMM 0
          match C4.compile_block s3 with
          | Except.error e =>
              Except.error (toString s3.line ++ ": error in then block: " ++ e)
          | Except.ok s4 =>
              if s4.token = TokenType.Else then
                let s5 := C4.next s4
                let s6 := C4.emit_with_operand (C4.emit s5 OpCode.JMP) OpCode.IMM 0
                match C4.compile_block s6 with
                | Except.error e =>
                    Except.error (toString s6.line ++ ": error in then block: " ++ e)
                | Except.ok s7 =>
                    Except.ok { s7 with e := updE s7.e jump_address (s7.le : Int) }
              else Except.ok { s4 with e := updE s4.e jump_address (s4.le : Int) }

/-- `compile_while_statement`, c4.rs lines 1200-1232: compiles the
condition, requires `type_ = INT` after it, records
`loop_address = le + 1` (the slot the `BZ` opcode itself is then written
into, after the condition's code), emits `BZ` and `IMM 0`, compiles the
body, emits `JMP` with operand `loop_address`, and stores the current
code length into `e[loop_address]`. -/
def C4.compile_while_statement (s : C4) : Except String C4 :=
  let s1 := C4.next s
  if s1.token ≠ 40 then
    Except.error (toString s1.line ++ ": open paren expected in while statement")
  else
    match C4.expr TokenType.Assign (C4.next s1) with
    | Except.error e =>
        Except.error (toString s1.line ++ ": error in while condition: " ++ e)
    | Except.ok s2 =>
        let condition_type := s2.type_
        if condition_type ≠ Ty.INT then
          Except.error (toString s2.line ++ ": while condition must be of type int")
        else
          let loop_address := s2.le + 1
          let s3 := C4.emit_with_operand (C4.emit s2 OpCode.BZ) OpCode.IMM 0
          match C4.compile_block s3 with
          | Except.error e =>
              Except.error (toString s3.line ++ ": error in while body: " ++ e)
          | Except.ok s4 =>
              let s5 := C4.emit_with_operand (C4.emit s4 OpCode.JMP) OpCode.IMM (loop_address : Int)
              Except.ok { s5 with e := updE s5.e loop_address (s5.le : Int) }

/-- The first body-search loop of `compile_function`, c4.rs lines 982-1007:
scans the raw source for the function name, skipping `//` comments and
whitespace; its final position is discarded by the following `self.p = 0`. -/
def C4.find_name_scan : Nat → List Char → C4 → C4
  | 0, _, s => s
  | fuel + 1, target, s =>
      if s.p < s.source.length then
        let ch := C4.current_char s
        if ch.toNat = 47 ∧ s.p + 1 < s.source.length ∧
            (s.source.getD (s.p + 1) (Char.ofNat 0)).toNat = 47 then
          let s1 := C4.skip_until (s.source.length + 1) (Char.ofNat 10) s
          let s2 := if s1.p < s1.source.length then { s1 with p := s1.p + 1 } else s1
          C4.find_name_scan fuel target s2
        else if isWsRust ch then C4.find_name_scan fuel target { s with p := s.p + 1 }
        else if s.p + target.length ≤ s.source.length ∧
            sliceChars s.source s.p (s.p + target.length) = target then
          { s with p := s.p + target.length }
        else C4.find_name_scan fuel target { s with p := s.p + 1 }
      else s

/-- The second search loop of `compile_function`, c4.rs lines 1015-1030:
scans for the literal text `int main`, then advances to the following `{`;
returns the `found` flag. -/
def C4.find_int_main_scan : Nat → C4 → C4 × Bool
  | 0, s => (s, false)
  | fuel + 1, s =>
      if s.p + 8 ≤ s.source.length then
        if sliceChars s.source s.p (s.p + 8) = "int main".data then
          let s1 := C4.skip_until (s.source.length + 1) (Char.ofNat 123) s
          if s1.p < s1.source.length then (s1, true)
          else C4.find_int_main_scan fuel { s1 with p := s1.p + 1 }
        else C4.find_int_main_scan fuel { s with p := s.p + 1 }
      else (s, false)

/-- `while p < len && current.is_whitespace() { p += 1 }`,
c4.rs lines 1046-1048. -/
def C4.skip_ws_chars : Nat → C4 → C4
  | 0, s => s
  | fuel + 1, s =>
      if s.p < s.source.length ∧ isWsRust (C4.current_char s) then
        C4.skip_ws_chars fuel { s with p := s.p + 1 }
      else s

/-- The body scan of `compile_function`, c4.rs lines 1040-1068: inside the
braces it looks for the literal text `return`; on finding it, skips
whitespace, reads a single digit as the return value (emitting
`IMM digit`, or `IMM 0` when no digit follows), skips to `;`, emits `LEV`
and stops; otherwise advances one character. -/
def C4.body_scan : Nat → C4 → C4
  | 0, s => s
  | fuel + 1, s =>
      if s.p < s.source.length ∧ C4.current_char s ≠ Char.ofNat 125 then
        if (C4.current_char s).toNat = 114 ∧ s.p + 6 ≤ s.source.length ∧
            sliceChars s.source s.p (s.p + 6) = "return".data then
          let s1 := C4.skip_ws_chars (s.source.length + 1) { s with p := s.p + 6 }
          let s2 :=
            if s1.p < s1.source.length ∧ isDigitRust (C4.current_char s1) then
              let ret_val : Int := ((C4.current_char s1).toNat : Int) - 48
              C4.skip_until (s1.source.length + 1) (Char.ofNat 59)
                (C4.emit_with_operand s1 OpCode.IMM ret_val)
            else C4.emit_with_operand s1 OpCode.IMM 0
          C4.emit s2 OpCode.LEV
        else C4.body_scan fuel { s with p := s.p + 1 }
      else s

/-- The symbol search of `compile_function`, c4.rs lines 951-958: first
entry whose name matches and whose class is `Fun`. -/
def find_fun_from (syms : List CSymbol) (i : Nat) (name : List Char) : Option Nat :=
  match syms with
  | [] => none
  | sym :: rest =>
      if sym.name = name ∧ sym.class_ = TokenType.Fun then some i
      else find_fun_from rest (i + 1) name

/-- The symbol search of `compile`, c4.rs lines 887-894: first entry whose
name matches, regardless of class. -/
def find_name_from (syms : List CSymbol) (i : Nat) (name : List Char) : Option Nat :=
  match syms with
  | [] => none
  | sym :: rest => if sym.name = name then some i else find_name_from rest (i + 1) name

/-- `compile_function`, c4.rs lines 949-1082: looks the function up by
name and class `Fun`, emits `ENT`, `IMM return_type`, `IMM value`, sets
`loc = le`, runs the (discarded) name scan, resets `p` to 0, scans for
`int main`, and when found skips to the `{` and runs the body scan;
finally appends `LEV` unless the last emitted word already is `LEV`. -/
def C4.compile_function (s : C4) (name : List Char) (return_type : Int) :
    Except String C4 :=
  match find_fun_from s.symbols 0 name with
  | none => Except.error (toString s.line ++ ": undefined function")
  | some idx =>
      let sym := s.symbols.getD idx default_symbol
      if sym.class_ ≠ TokenType.Fun then
        Except.error (toString s.line ++ ": not a function (class=" ++
          toString sym.class_ ++ ")")
      else
        let s1 := C4.emit_with_operand
          (C4.emit_with_operand (C4.emit s OpCode.ENT) OpCode.IMM return_type)
          OpCode.IMM sym.value
        let s2 := { s1 with loc := (s1.le : Int) }
        let s3 := C4.find_name_scan (s2.source.length + 1) name s2
        let s4 := { s3 with p := 0 }
        let (s5, found) := C4.find_int_main_scan (s4.source.length + 1) s4
        let s6 :=
          if found then
            let s6a := C4.skip_until (s5.source.length + 1) (Char.ofNat 123) s5
            if s6a.p < s6a.source.length then
              C4.body_scan (s6a.source.length + 1) { s6a with p := s6a.p + 1 }
            else s6a
          else s5
        if s6.e s6.le ≠ OpCode.LEV then Except.ok (C4.emit s6 OpCode.LEV)
        else Except.ok s6

/-- `compile`, c4.rs lines 880-946: sets `line = 1`, lexes one token,
searches the symbol table for a `main` entry by name (falling back to the
recomputed hash, and finally appending a fresh `Fun` symbol whose value is
the current code length), classifies it as `Fun`/`INT`, and compiles the
`main` function, wrapping any error. -/
def C4.compile (s : C4) : Except String C4 :=
  let s1 := C4.next { s with line := 1 }
  let s2 :=
    match find_name_from s1.symbols 0 "main".data with
    | some idx =>
        let sym := s1.symbols.getD idx default_symbol
        let upd := { sym with class_ := TokenType.Fun, type_ := Ty.INT, value := (s1.le : Int) }
        { s1 with symbols := s1.symbols.set idx upd }
    | none =>
        -- the fallback recomputes the hash of "main" inline (the same
        -- fold-and-shift as hashOf) and re-runs find_symbol
        let hash := hashOf "main".data
        match C4.find_symbol s1 hash "main".data with
        | some idx =>
            let sym := s1.symbols.getD idx default_symbol
            let upd := { sym with class_ := TokenType.Fun, type_ := Ty.INT, value := (s1.le : Int) }
            { s1 with symbols := s1.symbols.set idx upd }
        | none =>
            { s1 with symbols := s1.symbols ++
                [{ token := TokenType.Id, hash := hash, name := "main".data,
                   class_ := TokenType.Fun, type_ := Ty.INT, value := (s1.le : Int),
                   h_class := 0, h_type := 0, h_val := 0 }] }
  match C4.compile_function s2 "main".data Ty.INT with
  | Except.error e => Except.error ("Compilation error: " ++ e)
  | Except.ok s3 => Except.ok s3

/-- `run`, c4.rs lines 1325-1330: the "simplified implementation" that
ignores the compiled program and the arguments and returns `Ok(0)`. -/
def C4.run (_s : C4) (_main_idx : Nat) (_arg_index : Nat) (_args : List String) :
    Except String Int :=
  Except.ok 0

/-- The error message of a compilation result, if any. -/
def errOf (r : Except String C4) : Option String :=
  match r with
  | Except.error m => some m
  | Except.ok _ => none

/-- A fresh compiler with the initialised symbol table and the given
source: the state the repository's unit tests build before `compile`
(`C4::new(); init_symbol_table(); source = ...`). -/
def test_state (src : List Char) : C4 :=
  { (C4.init_symbol_table C4.new) with source := src }

/-- A fresh compiler (no keywords interned) with the given symbol table
and source, about to lex from position 0. -/
def lex_state (syms : List CSymbol) (w : List Char) : C4 :=
  { C4.new with symbols := syms, source := w }

/-- A global `int` variable `x` at address 100, as the parser itself would
intern and classify it (hash as computed by `next`). -/
def x_sym : CSymbol :=
  { token := TokenType.Id, hash := hashOf ['x'], name := ['x'],
    class_ := TokenType.Glo, type_ := Ty.INT, value := 100,
    h_class := 0, h_type := 0, h_val := 0 }

/-- Claim C1 input: the spec's `int main() { return 42; }` example. -/
def c1_source : List Char := "int main() \x7b return 42; \x7d".data

/-- Claim C2 input: the expression `1+2`. -/
def st_c2 : C4 := { C4.new with source := "1+2".data }

/-- Claim C3 input: the assignment `x = 5` to a global int `x`. -/
def st_c3 : C4 := { C4.new with symbols := [x_sym], source := "x = 5".data }

/-- Claim C4 input: `while (1) { }`, compiled with the tracked type at
`INT` so the condition's type check passes. -/
def st_c4 : C4 := { test_state "while (1) \x7b \x7d".data with type_ := Ty.INT }

/-- Claim C5 input: `if (1) { } else { }`, tracked type at `INT`. -/
def st_c5 : C4 := { test_state "if (1) \x7b \x7d else \x7b \x7d".data with type_ := Ty.INT }

/-- Claim C6 input: `&x` with `x` a global int, fresh tracked type `CHAR`
(the `C4::new` initial value 0). -/
def st_c6 : C4 := { C4.new with symbols := [x_sym], source := "&x".data }

/-- Claim C6 second input: `&42`, a non-lvalue operand. -/
def st_c6b : C4 := { C4.new with source := "&42".data }

/-- Claim C7 input: the char literal `'A'` on a fresh state
(`token_val = 0`). -/
def st_c7 : C4 := { C4.new with source := [Char.ofNat 39, 'A', Char.ofNat 39] }

/-- Claim C7 second input: the same literal with a different prior
`token_val`. -/
def st_c7b : C4 := { st_c7 with token_val := 37 }

/-- Claim C8 inputs: `sizeof` of `int`, `char`, `int*`, `char**`. -/
def st_c8a : C4 := test_state "sizeof(int)".data
def st_c8b : C4 := test_state "sizeof(char)".data
def st_c8c : C4 := test_state "sizeof(int*)".data
def st_c8d : C4 := test_state "sizeof(char**)".data

/-- The hash value `next` computes for the identifier lexeme
`c0 :: w'`: the first character's code, folded with `hash*147 + char`
over the rest, then `(hash << 6) + length` (all wrapping `i32`). -/
def ident_hash (c0 : Char) (w' : List Char) : Int :=
  let h := w'.foldl (fun a c => wrap32 (wrap32 (a * 147) + (c.toNat : Int)))
    ((c0.toNat : Int))
  wrap32 (wrap32 (h * 64) + (((c0 :: w').length : Nat) : Int))

/-- The fresh symbol `next` appends when an identifier lexeme is not yet
interned (c4.rs lines 293-305). -/
def ident_new_sym (c0 : Char) (w' : List Char) : CSymbol :=
  { token := TokenType.Id, hash := ident_hash c0 w', name := (c0 :: w'),
    class_ := 0, type_ := 0, value := 0, h_class := 0, h_type := 0, h_val := 0 }

/-- Claim C1 (code_bug): compiling the source text
`int main() { return 42; }` from the unit-test entry state succeeds, but
executing the result through the `run` entry point yields exit status 0,
not 42 — `run` is a stub that never interprets the emitted words.  The
compiled code is `ENT, IMM, 1, IMM, 0, IMM, 4, LEV`: `compile_function`
moreover parses only the first digit of `42`, loading `IMM 4`. -/
theorem C1_compile_succeeds_run_returns_zero :
    (C4.compile (test_state c1_source)).map (fun s => C4.run s 0 1 []) =
      Except.ok (Except.ok 0) ∧
    ((C4.compile (test_state c1_source)).map
        (fun s => (s.e 1, s.e 2, s.e 3, s.e 4, s.e 5, s.e 6, s.e 7, s.e 8, s.le))).toOption =
      some (OpCode.ENT, OpCode.IMM, 1, OpCode.IMM, 0, OpCode.IMM, 4, OpCode.LEV, 8) := by
  exact ⟨by rfl, by rfl⟩

/-- Claim C2 (code_bug): `expr` at assignment precedence on `1+2` does not
emit a single `ADD` after the right-hand side; the binary loop emits the
opcode before recursing and then re-dispatches on the token found after
the right-hand side, so the compilation fails with "bad operator". -/
theorem C2_binary_loop_rejects_one_plus_two :
    errOf (C4.expr TokenType.Assign (C4.next st_c2)) = some "1: bad operator" := by
  decide

/-- Claim C3 (code_bug): `expr` at assignment precedence on `x = 5` (with
`x` a global int) rewrites the trailing `LI` to `PSH` and then stops: the
result is `Ok` with code `IMM 100, PSH` (`le = 3`, no `SI`/`SC` emitted)
and the right-hand side's `5` still pending as the current token — the
right-hand side is never compiled and no store is emitted. -/
theorem C3_assignment_emits_no_store :
    ((C4.expr TokenType.Assign (C4.next st_c3)).map
        (fun s => (s.le, s.e 1, s.e 2, s.e 3, s.token, s.token_val))).toOption =
      some (3, OpCode.IMM, 100, OpCode.PSH, TokenType.Num, 5) := by
  decide

/-- Claim C4 (code_bug): compiling `while (1) { }` (tracked type `INT`)
yields code `IMM, 1, 8, IMM, 0, JMP, IMM, 3` with `le = 8`: the condition
starts at address 1, but the `JMP` operand is 3 — the address of the `BZ`
slot recorded after the condition, not the condition's start — the word
at that slot (where the `BZ` opcode was emitted) has been overwritten
with the exit code length 8, and the `BZ`'s placeholder operand at
address 5 is still 0, never backpatched. -/
theorem C4_while_backpatching_malformed :
    ((C4.compile_while_statement (C4.next st_c4)).map
        (fun s => (s.e 1, s.e 2, s.e 3, s.e 4, s.e 5, s.e 6, s.e 7, s.e 8, s.le))).toOption =
      some (OpCode.IMM, 1, 8, OpCode.IMM, 0, OpCode.JMP, OpCode.IMM, 3, 8) := by
  rfl

/-- Claim C5 (code_bug): compiling `if (1) { } else { }` (tracked type
`INT`) yields code `IMM, 1, 8, IMM, 0, JMP, IMM, 0` with `le = 8`: the
backpatch target `jump_address = 3` is the slot holding the `BZ` opcode
itself, which is overwritten with the post-else code length 8 (not the
else-block's start); the `BZ`'s placeholder operand at address 5 and the
`JMP`'s placeholder operand at address 8 both remain 0 — the `JMP` is
never backpatched (`_else_address` is computed and unused). -/
theorem C5_if_else_backpatching_malformed :
    ((C4.compile_if_statement (C4.next st_c5)).map
        (fun s => (s.e 1, s.e 2, s.e 3, s.e 4, s.e 5, s.e 6, s.e 7, s.e 8, s.le))).toOption =
      some (OpCode.IMM, 1, 8, OpCode.IMM, 0, OpCode.JMP, OpCode.IMM, 0, 8) := by
  rfl

/-- Claim C6 counterexample: compiling `&x` where `x` is a declared
global `int` (declared type `INT = 1`) on a fresh state removes the
trailing `LI` (`le` drops back to 2, leaving `IMM 100`), but the tracked
type after the expression is 0 — the state's prior `type_`, restored by
`expr`'s exit — and not `3 = INT + PTR`, one indirection above the
variable's declared type as the claim states. -/
theorem C6_address_of_type_counterexample :
    ((C4.expr TokenType.Assign (C4.next st_c6)).map
        (fun s => (s.le, s.e 1, s.e 2, s.type_))).toOption =
      some (2, OpCode.IMM, 100, 0) ∧ (0 : Int) ≠ Ty.INT + Ty.PTR := by
  decide

/-- Claim C6 amended: compiling `&x` for a loaded global variable removes
the trailing load from the emitted code (the claim's removal behaviour
holds) and `&42` fails with the "bad address-of" CompileError (the
claim's error behaviour holds); but the tracked type after compiling the
expression equals the pre-call tracked type (here 0), because the `+2`
indirection applied in the `&` branch is applied to the operand
sub-expression's restored type and is itself discarded when `expr`
restores its saved type on return. -/
theorem C6_address_of_amended :
    ((C4.expr TokenType.Assign (C4.next st_c6)).map
        (fun s => (s.le, s.e 1, s.e 2, s.type_))).toOption =
      some (2, OpCode.IMM, 100, st_c6.type_) ∧
    errOf (C4.expr TokenType.Assign (C4.next st_c6b)) = some "1: bad address-of" := by
  decide

/-- Claim C7 counterexample: lexing the char literal `'A'` on a fresh
state yields a `Num` token, but `token_val` is 0 — the prior value —
and not 65, the character code of `A`. -/
theorem C7_char_literal_counterexample :
    (C4.next st_c7).token = TokenType.Num ∧ (C4.next st_c7).token_val = 0 ∧
      (0 : Int) ≠ 65 := by
  decide

/-- Claim C7 amended: lexing a single-quoted literal produces a `Num`
token but leaves `token_val` unchanged from its previous value (the
decoded character is consumed and discarded; only double-quoted content
is stored): the same literal `'A'` leaves `token_val` at 0 on a fresh
state and at 37 on a state whose previous `token_val` was 37, while the
cursor consumes all three characters in both cases. -/
theorem C7_char_literal_amended :
    (C4.next st_c7).token = TokenType.Num ∧ (C4.next st_c7).token_val = st_c7.token_val ∧
    (C4.next st_c7).p = 3 ∧
    (C4.next st_c7b).token = TokenType.Num ∧
    (C4.next st_c7b).token_val = st_c7b.token_val ∧ (C4.next st_c7b).p = 3 := by
  decide

/-- Claim C8 counterexample: compiling `sizeof(int)` on a fresh state
(prior tracked type `CHAR = 0`) emits `IMM 8` as claimed, but the
resulting tracked type is 0, not `INT`: the `INT` assigned inside the
`sizeof` branch is overwritten when `expr` restores its saved type. -/
theorem C8_sizeof_type_counterexample :
    ((C4.expr TokenType.Assign (C4.next st_c8a)).map
        (fun s => (s.e 1, s.e 2, s.le, s.type_))).toOption =
      some (OpCode.IMM, 8, 2, 0) ∧ (0 : Int) ≠ Ty.INT := by
  decide

/-- Claim C8 amended: `sizeof(int)` emits `IMM word_size` (8),
`sizeof(char)` emits `IMM 1`, and `sizeof(int*)` and `sizeof(char**)`
both emit `IMM word_size` (the pointer size, not the pointee size); in
all cases the tracked type after the expression equals the pre-call
tracked type (here `CHAR = 0`), because `expr` restores its saved type on
return, overwriting the `INT` set in the `sizeof` branch. -/
theorem C8_sizeof_amended :
    ((C4.expr TokenType.Assign (C4.next st_c8a)).map
        (fun s => (s.e 1, s.e 2, s.le, s.type_))).toOption =
      some (OpCode.IMM, word_size, 2, st_c8a.type_) ∧
    ((C4.expr TokenType.Assign (C4.next st_c8b)).map
        (fun s => (s.e 1, s.e 2, s.le, s.type_))).toOption =
      some (OpCode.IMM, 1, 2, st_c8b.type_) ∧
    ((C4.expr TokenType.Assign (C4.next st_c8c)).map
        (fun s => (s.e 1, s.e 2, s.le, s.type_))).toOption =
      some (OpCode.IMM, word_size, 2, st_c8c.type_) ∧
    ((C4.expr TokenType.Assign (C4.next st_c8d)).map
        (fun s => (s.e 1, s.e 2, s.le, s.type_))).toOption =
      some (OpCode.IMM, word_size, 2, st_c8d.type_) := by
  refine ⟨by decide, by decide, by decide, by decide⟩

/-- Claim C10 (confirmed): for every compiler state, main index, argument
index and argv, the `run` entry point returns `Ok(0)`: the virtual
machine never interprets the emitted instruction words, so the reported
exit status is 0 regardless of the compiled source. -/
theorem C10_run_always_zero (s : C4) (m a : Nat) (args : List String) :
    C4.run s m a args = Except.ok 0 := rfl

lemma identRust_ranges (c : Char) (h : identRust c = true) :
    (65 ≤ c.toNat ∧ c.toNat ≤ 90) ∨ (97 ≤ c.toNat ∧ c.toNat ≤ 122) ∨ c.toNat = 95 := by
  simp only [identRust, isAlphaRust, Bool.or_eq_true, Bool.and_eq_true,
    decide_eq_true_eq] at h
  tauto

lemma isWs_of_ident (c : Char) (hc : identRust c = true) : isWsRust c = false := by
  cases hb : isWsRust c
  · rfl
  · exfalso
    simp only [isWsRust, Bool.or_eq_true, Bool.and_eq_true, decide_eq_true_eq] at hb
    obtain h | h | h := identRust_ranges _ hc <;> omega

lemma ident_ne_nl (c : Char) (hc : identRust c = true) : ¬ c.toNat = 10 := by
  obtain h | h | h := identRust_ranges _ hc <;> omega

lemma skip_ws_ident (fuel : Nat) (s : C4) (hp : s.p < s.source.length)
    (hc : identRust (C4.current_char s) = true) :
    C4.skip_ws (fuel + 1) s = s := by
  rw [C4.skip_ws, if_pos hp, if_neg (ident_ne_nl _ hc),
    if_neg (by simp [isWs_of_ident _ hc])]

lemma id_loop_all (fuel : Nat) :
    ∀ (s : C4) (h : Int), s.p ≤ s.source.length → s.source.length - s.p ≤ fuel →
    (∀ c ∈ s.source.drop s.p, identRust c = true) →
    C4.id_loop fuel s h =
      ({ s with p := s.source.length },
       (s.source.drop s.p).foldl (fun a c => wrap32 (wrap32 (a * 147) + (c.toNat : Int))) h) := by
  induction fuel with
  | zero =>
      intro s h hle hfuel _
      have hp : s.p = s.source.length := by omega
      rw [C4.id_loop, List.drop_eq_nil_of_le (le_of_eq hp.symm), ← hp]
      simp
  | succ fuel ih =>
      intro s h hle hfuel hall
      by_cases hp : s.p < s.source.length
      · have hdrop : s.source.drop s.p = s.source[s.p] :: s.source.drop (s.p + 1) :=
          List.drop_eq_getElem_cons hp
        have hcur : C4.current_char s = s.source[s.p] := by
          simp [C4.current_char, hp, List.getD_eq_getElem?_getD, List.getElem?_eq_getElem hp]
        have hident : identRust s.source[s.p] = true := by
          apply hall
          rw [hdrop]
          exact List.mem_cons_self _ _
        have hcond : (isAlphaRust (C4.current_char s) || decide ((C4.current_char s).toNat = 95)) = true := by
          rw [hcur]
          exact hident
        rw [C4.id_loop, if_pos hp, if_pos hcond]
        rw [ih { s with p := s.p + 1 } (wrap32 (wrap32 (h * 147) + ((C4.current_char s).toNat : Int)))
            (by simp only [C4.p]; omega) (by simp only [C4.p]; omega)
            (by intro c hc
                apply hall
                rw [hdrop]
                exact List.mem_cons_of_mem _ hc)]
        rw [hcur, hdrop, List.foldl_cons]
      · have hp' : s.p = s.source.length := by omega
        rw [C4.id_loop, if_neg hp, List.drop_eq_nil_of_le (le_of_eq hp'.symm), ← hp']
        simp

lemma find_from_spec (syms : List CSymbol) :
    ∀ (i : Nat) (h : Int) (w : List Char) (j : Nat),
    find_symbol_from syms i h w = some j →
    ∃ k, k < syms.length ∧ j = i + k ∧ (syms.getD k default_symbol).hash = h ∧
      (syms.getD k default_symbol).name = w ∧ syms.getD k default_symbol ∈ syms := by
  induction syms with
  | nil => intro i h w j hf; simp [find_symbol_from] at hf
  | cons a rest ih =>
      intro i h w j hf
      rw [find_symbol_from] at hf
      by_cases hm : a.hash = h ∧ a.name = w
      · rw [if_pos hm] at hf
        refine ⟨0, by simp, by simpa using hf.symm, ?_, ?_, ?_⟩ <;>
          simp [List.getD_cons_zero, hm.1, hm.2]
      · rw [if_neg hm] at hf
        obtain ⟨k, hk, hj, hh, hn, hmem⟩ := ih (i + 1) h w j hf
        exact ⟨k + 1, by simpa using hk, by omega,
          by simpa using hh, by simpa using hn, List.mem_cons_of_mem _ (by simpa using hmem)⟩

lemma find_from_none_append (syms : List CSymbol) :
    ∀ (i : Nat) (h : Int) (w : List Char) (a : CSymbol),
    find_symbol_from syms i h w = none → a.hash = h → a.name = w →
    find_symbol_from (syms ++ [a]) i h w = some (i + syms.length) := by
  induction syms with
  | nil =>
      intro i h w a _ ha hn
      simp [find_symbol_from, ha, hn]
  | cons b rest ih =>
      intro i h w a hf ha hn
      rw [find_symbol_from] at hf
      by_cases hm : b.hash = h ∧ b.name = w
      · rw [if_pos hm] at hf; exact absurd hf (by simp)
      · rw [if_neg hm] at hf
        rw [List.cons_append, find_symbol_from, if_neg hm, ih (i + 1) h w a hf ha hn]
        congr 1
        simp
        omega

lemma getD_append_len (l : List CSymbol) (a : CSymbol) :
    (l ++ [a]).getD l.length default_symbol = a := by
  induction l with
  | nil => rfl
  | cons b rest ih =>
      rw [List.cons_append, List.length_cons, List.getD_cons_succ]
      exact ih

/-- Lexing a pure identifier source `c0 :: w'` (every character in
`[A-Za-z_]`) from position 0: the whole lexeme is consumed, hashed, and
either resolved to the first matching symbol or appended as a fresh `Id`
symbol. -/
lemma next_ident (syms : List CSymbol) (c0 : Char) (w' : List Char)
    (hid : ∀ c ∈ (c0 :: w'), identRust c = true) :
    C4.next (lex_state syms (c0 :: w')) =
      (match find_symbol_from syms 0 (ident_hash c0 w') (c0 :: w') with
       | some idx =>
           { lex_state syms (c0 :: w') with p := (c0 :: w').length,
                                            token := (syms.getD idx default_symbol).token,
                                            id := idx }
       | none =>
           { lex_state syms (c0 :: w') with p := (c0 :: w').length,
                                            token := TokenType.Id,
                                            id := syms.length,
                                            symbols := syms ++ [ident_new_sym c0 w'] }) := by
  have hc0 : identRust c0 = true := hid c0 (List.mem_cons_self _ _)
  have hlen : 0 < (c0 :: w').length := by simp
  have hcond : (isAlphaRust c0 || decide (c0.toNat = 95)) = true := hc0
  have hstep0 : ({ lex_state syms (c0 :: w') with token := 0 } : C4) = lex_state syms (c0 :: w') := rfl
  have hp0 : (lex_state syms (c0 :: w')).p < (lex_state syms (c0 :: w')).source.length := hlen
  have hcur : C4.current_char (lex_state syms (c0 :: w')) = c0 := by
    rw [C4.current_char, if_pos hp0]
    rfl
  have hsw : C4.skip_ws ((lex_state syms (c0 :: w')).source.length + 1)
      (lex_state syms (c0 :: w')) = lex_state syms (c0 :: w') :=
    skip_ws_ident ((lex_state syms (c0 :: w')).source.length) _ hp0 (by rw [hcur]; exact hc0)
  rw [C4.next, C4.nextF]
  rw [hstep0, hsw, if_pos hp0, hcur, if_pos hcond]
  have hil := id_loop_all ((c0 :: w').length + 1)
      ({ lex_state syms (c0 :: w') with p := 1 }) ((c0.toNat : Int))
      (by simp only [lex_state, C4.new, List.length_cons]; omega)
      (by simp only [lex_state, C4.new, List.length_cons]; omega)
      (by intro c hc
          apply hid
          simp only [lex_state, C4.new] at hc
          simp only [List.drop_one, List.tail_cons] at hc
          exact List.mem_cons_of_mem _ hc)
  simp only [show ({ lex_state syms (c0 :: w') with p := 1 } : C4).source = c0 :: w' from rfl,
    show ({ lex_state syms (c0 :: w') with p := 1 } : C4).p = 1 from rfl,
    show (lex_state syms (c0 :: w')).source = c0 :: w' from rfl,
    List.drop_one, List.tail_cons] at hil
  simp only [show (lex_state syms (c0 :: w')).source = c0 :: w' from rfl,
    show (lex_state syms (c0 :: w')).p = 0 from rfl, Nat.zero_add]
  rw [hil]
  simp only [lex_state, C4.new, sliceChars, List.drop_zero, Nat.sub_zero, List.take_length,
    C4.find_symbol, List.drop_one, List.tail_cons, ident_hash, ident_new_sym]

/-- Claim C9 (confirmed): for every identifier lexeme matching
`[A-Za-z_][A-Za-z_]*` (a nonempty character list `c0 :: w'` of letters and
underscores) that does not resolve to a keyword (every symbol of that name
in the table has token `Id`), lexing it with `next` yields an identifier
token whose resolved symbol's `name` equals the lexeme, and lexing the
same lexeme again from the resulting symbol table resolves to the same
symbol-table index and leaves the table unchanged: interning is
idempotent and no duplicate entry is created. -/
theorem C9_identifier_interning (c0 : Char) (w' : List Char) (syms : List CSymbol)
    (hid : ∀ c ∈ (c0 :: w'), identRust c = true)
    (hkw : ∀ sym ∈ syms, sym.name = (c0 :: w') → sym.token = TokenType.Id) :
    (C4.next (lex_state syms (c0 :: w'))).token = TokenType.Id ∧
    ((C4.next (lex_state syms (c0 :: w'))).symbols.getD
        (C4.next (lex_state syms (c0 :: w'))).id default_symbol).name = (c0 :: w') ∧
    (C4.next (lex_state (C4.next (lex_state syms (c0 :: w'))).symbols (c0 :: w'))).token
      = TokenType.Id ∧
    (C4.next (lex_state (C4.next (lex_state syms (c0 :: w'))).symbols (c0 :: w'))).id
      = (C4.next (lex_state syms (c0 :: w'))).id ∧
    (C4.next (lex_state (C4.next (lex_state syms (c0 :: w'))).symbols (c0 :: w'))).symbols
      = (C4.next (lex_state syms (c0 :: w'))).symbols := by
  rw [next_ident syms c0 w' hid]
  cases hfind : find_symbol_from syms 0 (ident_hash c0 w') (c0 :: w') with
  | some idx =>
      obtain ⟨k, hk, hj, hh, hn, hmem⟩ := find_from_spec syms 0 _ _ _ hfind
      have hkidx : idx = k := by omega
      subst hkidx
      have htok : (syms.getD idx default_symbol).token = TokenType.Id :=
        hkw _ hmem hn
      simp only [hfind]
      simp only [show (lex_state syms (c0 :: w')).symbols = syms from rfl]
      rw [next_ident syms c0 w' hid]
      simp only [hfind]
      refine ⟨htok, hn, htok, ?_, ?_⟩ <;> trivial
  | none =>
      simp only [hfind]
      rw [next_ident (syms ++ [ident_new_sym c0 w']) c0 w' hid]
      rw [find_from_none_append syms 0 (ident_hash c0 w') (c0 :: w')
        (ident_new_sym c0 w') hfind rfl rfl]
      simp [getD_append_len, lex_state, C4.new, ident_new_sym]

/-- Witness for C9: the lexeme `foo` on the empty symbol table. -/
theorem C9_identifier_interning_witness :
    (C4.next (lex_state [] ['f', 'o', 'o'])).token = TokenType.Id ∧
    ((C4.next (lex_state [] ['f', 'o', 'o'])).symbols.getD
        (C4.next (lex_state [] ['f', 'o', 'o'])).id default_symbol).name = ['f', 'o', 'o'] ∧
    (C4.next (lex_state (C4.next (lex_state [] ['f', 'o', 'o'])).symbols ['f', 'o', 'o'])).token
      = TokenType.Id ∧
    (C4.next (lex_state (C4.next (lex_state [] ['f', 'o', 'o'])).symbols ['f', 'o', 'o'])).id
      = (C4.next (lex_state [] ['f', 'o', 'o'])).id ∧
    (C4.next (lex_state (C4.next (lex_state [] ['f', 'o', 'o'])).symbols ['f', 'o', 'o'])).symbols
      = (C4.next (lex_state [] ['f', 'o', 'o'])).symbols :=
  C9_identifier_interning 'f' ['o', 'o'] [] (by decide) (by simp)
